import Mathlib

/-!
Verification development for the `devenv` developer-environment manager.

The definitions below are a shallow embedding of the program's components:

* Registry (`src/registry.rs`): the on-disk file is modelled by `RegFile`
  (missing, present-but-malformed, or present with a parsed map); the
  in-memory `BTreeMap<String, PathBuf>` is an association list whose insert
  replaces the binding of an existing key.  Mutating operations return the
  new disk state plus a flag recording whether the file was rewritten,
  mirroring the load / mutate / save structure of the source.
* Declarative config and Dockerfile generation (`src/main.rs`):
  `generate_dockerfile` is embedded line for line.
* Container lifecycle (`cmd_start` / `cmd_remove` in `src/main.rs`, and
  `run_detached` in `src/docker/mod.rs`): the runtime is a black box, so the
  lifecycle commands are embedded as the sequence of runtime calls they
  issue from an observed container state, together with the state-transition
  semantics of those calls.
* Image build (`docker_build_with_opts` in `src/docker.rs` and
  `build_with_opts` in `src/docker/mod.rs`): failure semantics over the
  spawn/exit outcome, respectively over the streamed build events.
* Interactive exec session (`exec_interactive` in `src/docker/mod.rs`):
  the session is embedded as a trace of session events over an environment
  of remote outcomes; the Rust scope guard (`RawModeGuard`, dropped on every
  exit path) appears as the trailing raw-mode-release event on each return
  path, and `tokio::try_join!` on the two pump join handles as completion at
  the later of the two pump completion instants.
-/

set_option autoImplicit false

namespace Devenv

/-! ## Registry (`src/registry.rs`) -/

/-- The in-memory registry map (`BTreeMap<String, PathBuf>` in `registry.rs`),
as an association list from environment name to project path. -/
abbrev EnvMap := List (String × String)

/-- `BTreeMap::get`: first binding of the key, if any. -/
def mapGet (k : String) : EnvMap → Option String
  | [] => none
  | (k', v) :: rest => if k' = k then some v else mapGet k rest

/-- `BTreeMap::insert`: replace the binding of `k` if present, else append. -/
def mapInsert (k v : String) : EnvMap → EnvMap
  | [] => [(k, v)]
  | (k', v') :: rest =>
    if k' = k then (k, v) :: rest else (k', v') :: mapInsert k v rest

/-- `BTreeMap::remove`: drop the binding of `k` if present. -/
def mapErase (k : String) : EnvMap → EnvMap
  | [] => []
  | (k', v') :: rest =>
    if k' = k then rest else (k', v') :: mapErase k rest

/-- Number of bindings held for key `k`. -/
def countKey (k : String) (l : EnvMap) : Nat := (l.map Prod.fst).count k

/-- The registry file on disk (`registry.json`): absent, present but
unparseable, or present with a parsed name → path map. -/
inductive RegFile where
  | missing : RegFile
  | malformed : RegFile
  | stored (envs : EnvMap) : RegFile
  deriving DecidableEq, Repr

/-- The registry error taxonomy visible to callers of `registry.rs`. -/
inductive RegError where
  /-- `register_env` bailed: the name exists bound to a different path. -/
  | conflict (name existing : String) : RegError
  /-- `lookup_env` context error: name not present in the registry. -/
  | notFound (name : String) : RegError
  /-- `load_registry` parse failure on a present but malformed file. -/
  | corrupt : RegError
  deriving DecidableEq, Repr

/-- `load_registry`: a readable file is parsed (`serde_json::from_str`, whose
failure is a hard error), an unreadable/absent file yields the default empty
registry. -/
def load_registry : RegFile → Except RegError EnvMap
  | .missing => .ok []
  | .malformed => .error .corrupt
  | .stored envs => .ok envs

/-- Result of a mutating registry operation: the caller-visible result, the
disk state afterwards, and whether `save_registry` rewrote the file. -/
structure RegOutcome (α : Type) where
  res : Except RegError α
  disk : RegFile
  wrote : Bool
  deriving Repr

/-- `register_env`: load; bail with a conflict if the name is bound to a
different path; otherwise insert the binding and save. -/
def register_env (name path : String) (d : RegFile) : RegOutcome Unit :=
  match load_registry d with
  | .error e => ⟨.error e, d, false⟩
  | .ok envs =>
    match mapGet name envs with
    | some existing =>
      if existing ≠ path then
        ⟨.error (.conflict name existing), d, false⟩
      else
        ⟨.ok (), .stored (mapInsert name path envs), true⟩
    | none => ⟨.ok (), .stored (mapInsert name path envs), true⟩

/-- `lookup_env`: load and look the name up; absence is a not-found error.
The operation never writes the file. -/
def lookup_env (name : String) (d : RegFile) : Except RegError String :=
  match load_registry d with
  | .error e => .error e
  | .ok envs =>
    match mapGet name envs with
    | some path => .ok path
    | none => .error (.notFound name)

/-- `unregister_env`: load; remove the binding and report whether it existed;
save only when something was removed. -/
def unregister_env (name : String) (d : RegFile) : RegOutcome Bool :=
  match load_registry d with
  | .error e => ⟨.error e, d, false⟩
  | .ok envs =>
    if (mapGet name envs).isSome then
      ⟨.ok true, .stored (mapErase name envs), true⟩
    else
      ⟨.ok false, d, false⟩

/-- Well-formedness of the disk: a parsed registry, being a `BTreeMap`, holds
at most one binding per key. -/
def DiskWF : RegFile → Prop
  | .stored envs => ∀ k, countKey k envs ≤ 1
  | _ => True

/-! ## Declarative configuration (`struct DevEnv` / `struct ZedRemote`,
`src/main.rs`).  Paths, scripts and package names are strings; `u16`/`u32`
become `Nat` (their values are only rendered, never computed with). -/

/-- `struct ZedRemote` from `main.rs`. -/
structure ZedRemote where
  enabled : Bool
  ssh_port : Option Nat
  ssh_user : Option String
  deriving DecidableEq, Repr

/-- `struct DevEnv` from `main.rs` (the `[devenv]` table of `devenv.toml`). -/
structure DevEnv where
  name : String
  image : String
  ssh_private_key : Option String
  packages : List String
  commands : List String
  zed_remote : Option ZedRemote
  ssh_public_key : Option String
  user_name : Option String
  user_uid : Option Nat
  user_gid : Option Nat
  provision_as_non_root : Bool
  deriving DecidableEq, Repr

/-- The non-root user candidate used both by `generate_dockerfile`
(`dev.user_name.as_deref().or_else(zed ssh_user)` guarded by `user != "root"`)
and by `cmd_start`'s provisioning-user choice
(`user_name.clone().or_else(zed ssh_user).filter(|u| u != "root")`). -/
def effectiveNonRootUser (dev : DevEnv) : Option String :=
  let candidate : Option String :=
    match dev.user_name with
    | some u => some u
    | none =>
      match dev.zed_remote with
      | some z => z.ssh_user
      | none => none
  match candidate with
  | some u => if u = "root" then none else some u
  | none => none

/-! ## Dockerfile generation (`generate_dockerfile`, `src/main.rs`) -/

/-- The extra-package install directive of `generate_dockerfile`
(`RUN (command -v apt-get ... && apt-get install -y {pkgs}) || true`). -/
def pkgInstallLine (pkgs : List String) : String :=
  "RUN (command -v apt-get >/dev/null 2>&1 && apt-get update && apt-get install -y "
    ++ String.intercalate " " pkgs ++ ") || true"

/-- The three user-creation / home-directory directives emitted by
`generate_dockerfile` for a non-root user (uid defaults to 1000, gid to uid). -/
def userCreationLines (dev : DevEnv) (user : String) : List String :=
  let uid := dev.user_uid.getD 1000
  let gid := dev.user_gid.getD uid
  [ "RUN (getent group " ++ toString gid ++ " || groupadd -g " ++ toString gid
      ++ " " ++ user ++ ") || true",
    "RUN (id -u " ++ user ++ " >/dev/null 2>&1 || useradd -m -u " ++ toString uid
      ++ " -g " ++ toString gid ++ " -s /bin/bash " ++ user ++ ") || true",
    "RUN mkdir -p /home/" ++ user ++ "/.ssh && chown -R " ++ user ++ ":" ++ user
      ++ " /home/" ++ user ]

/-- The fixed lines pushed by `generate_dockerfile` before the optional
package and user sections. -/
def dockerfileHeader (image : String) : List String :=
  [ "# Generated by devenv. Do not edit manually.",
    "# Edit devenv.toml and use " ++ (Char.ofNat 39).toString
      ++ "devenv start --rebuild" ++ (Char.ofNat 39).toString ++ " instead.",
    "FROM " ++ image,
    "\n# Common utilities",
    "RUN mkdir -p /workspace && \\",
    "    (command -v apt-get >/dev/null 2>&1 && apt-get update && apt-get install -y curl ca-certificates git sudo) || true" ]

/-- The fixed lines pushed by `generate_dockerfile` after the optional
sections. -/
def dockerfileTrailer : List String :=
  [ "RUN mkdir -p /root/.ssh && chmod 700 /root/.ssh",
    "WORKDIR /workspace",
    "CMD [\"/bin/sh\", \"-lc\", \"tail -f /dev/null\"]" ]

/-- The `lines` vector built by `generate_dockerfile` in `main.rs`. -/
def generate_dockerfile_lines (dev : DevEnv) : List String :=
  dockerfileHeader dev.image
    ++ (if dev.packages.isEmpty then [] else [pkgInstallLine dev.packages])
    ++ (match effectiveNonRootUser dev with
        | some u => userCreationLines dev u
        | none => [])
    ++ dockerfileTrailer

/-- `generate_dockerfile`: `lines.join("\n")`. -/
def generate_dockerfile (dev : DevEnv) : String :=
  String.intercalate "\n" (generate_dockerfile_lines dev)

/-- The scenario configuration: image `debian:bookworm-slim`, packages
`["git", "make"]`, no user. -/
def demoDevEnv : DevEnv :=
  { name := "demo", image := "debian:bookworm-slim", ssh_private_key := none,
    packages := ["git", "make"], commands := [], zed_remote := none,
    ssh_public_key := none, user_name := none, user_uid := none,
    user_gid := none, provision_as_non_root := false }

/-! ## Container lifecycle (`cmd_start` / `cmd_remove` in `src/main.rs`,
`run_detached` in `src/docker/mod.rs`).

The container runtime is an external black box; what the program controls is
which runtime calls it issues from an observed container state.  The three
observable states and the call vocabulary follow the source.  -/

/-- The three observable container states. -/
inductive ContainerState where
  | absent : ContainerState
  | stopped : ContainerState
  | running : ContainerState
  deriving DecidableEq, Repr

/-- Calls the program issues against the container runtime. -/
inductive RuntimeCall where
  /-- `is_container_running` / `list_containers` without `all`. -/
  | queryRunning (name : String) : RuntimeCall
  /-- `container_exists` / `list_containers` with `all`. -/
  | queryExists (name : String) : RuntimeCall
  /-- `create_container` with binds, port bindings
  (`(container port, host ip, host port)` triples), command and workdir. -/
  | createContainer (name image : String) (binds : List String)
      (portBindings : List (String × String × String)) (cmd : List String)
      (workingDir : String) : RuntimeCall
  /-- `start_container`. -/
  | startContainer (name : String) : RuntimeCall
  /-- `stop_container`. -/
  | stopContainer (name : String) : RuntimeCall
  /-- `remove_container` with its force flag. -/
  | removeContainer (name : String) (force : Bool) : RuntimeCall
  /-- a one-shot shell exec (`docker_exec_shell` / `docker_exec_shell_as`). -/
  | execShell (name : String) (user : Option String) (script : String) : RuntimeCall
  deriving DecidableEq, Repr

/-- Answer the `is_container_running` query from the observed state. -/
def isContainerRunning : ContainerState → Bool
  | .running => true
  | _ => false

/-- Answer the `container_exists` query from the observed state. -/
def containerExists : ContainerState → Bool
  | .absent => false
  | _ => true

/-- The published port mapping built by `run_detached`: when a host SSH port
is configured, container port `22/tcp` is bound to `0.0.0.0:{port}`. -/
def sshPortBindings : Option Nat → List (String × String × String)
  | some p => [("22/tcp", "0.0.0.0", toString p)]
  | none => []

/-- `run_detached` (`src/docker/mod.rs`): create the container — project
directory bind-mounted at `/workspace`, optional published SSH port, blocking
placeholder command, workdir `/workspace` — then start it. -/
def run_detached (containerName image projectDir : String)
    (hostSshPort : Option Nat) : List RuntimeCall :=
  [ .createContainer containerName image [projectDir ++ ":/workspace"]
      (sshPortBindings hostSshPort) ["/bin/sh", "-lc", "sleep infinity"]
      "/workspace",
    .startContainer containerName ]

/-- The SSH port chosen by `cmd_start`: the configured port when Zed remote is
enabled (default 2222), none otherwise. -/
def configSshPort (dev : DevEnv) : Option Nat :=
  match dev.zed_remote with
  | none => none
  | some z => if z.enabled then some (z.ssh_port.getD 2222) else none

/-- The state-reconciliation portion of `cmd_start` (`main.rs`): query the
running state; if running, return early reporting "already running"; else
query existence and either start the existing container or create-and-start
a new one.  Returns the runtime calls issued and the already-running report. -/
def cmd_start_ensure_running (st : ContainerState)
    (containerName image projectDir : String) (sshPort : Option Nat) :
    List RuntimeCall × Bool :=
  if isContainerRunning st then
    ([.queryRunning containerName], true)
  else
    ([.queryRunning containerName, .queryExists containerName]
      ++ (if containerExists st then [.startContainer containerName]
          else run_detached containerName image projectDir sshPort),
      false)

/-- Runtime semantics of a single call: create yields a stopped container,
start a running one, stop a stopped one, remove an absent one; queries and
execs do not change container state. -/
def applyCall (st : ContainerState) : RuntimeCall → ContainerState
  | .createContainer .. => .stopped
  | .startContainer _ => .running
  | .stopContainer _ => .stopped
  | .removeContainer .. => .absent
  | _ => st

/-- Container state after a sequence of runtime calls. -/
def applyCalls (st : ContainerState) (calls : List RuntimeCall) : ContainerState :=
  calls.foldl applyCall st

/-- `cmd_remove` (`main.rs`): if the container exists, stop it when running
and remove it (force flag `false`); in every case attempt registry
unregistration afterwards.  Returns the runtime calls, the distinct
(container-existed, registry-unregistration-result) report, and the registry
disk afterwards. -/
def cmd_remove (st : ContainerState) (containerName envName : String)
    (d : RegFile) : List RuntimeCall × (Bool × Except RegError Bool) × RegFile :=
  let calls :=
    if containerExists st then
      [RuntimeCall.queryExists containerName, .queryRunning containerName]
        ++ (if isContainerRunning st then [RuntimeCall.stopContainer containerName]
            else [])
        ++ [RuntimeCall.removeContainer containerName false]
    else
      [RuntimeCall.queryExists containerName]
  let u := unregister_env envName d
  (calls, (containerExists st, u.res), u.disk)

/-! ## Image build (`docker_build_with_opts` in `src/docker.rs`,
`build_with_opts` in `src/docker/mod.rs`) -/

/-- Failure modes of the CLI build path: the spawn of `docker build` failed
(transport-level), or the final build result was non-zero. -/
inductive BuildError where
  | spawnFailed : BuildError
  | buildFailed : BuildError
  deriving DecidableEq, Repr

/-- `docker_build_with_opts` (`src/docker.rs`): assemble the argv, run
`docker build`, error if the spawn fails, error if the exit status is
non-zero, succeed otherwise.  `status = none` models a failed spawn,
`status = some c` a final build result with exit code `c`. -/
def docker_build_with_opts (pull noCache : Bool) (tag contextDir : String)
    (status : Option Int) : List String × Except BuildError Unit :=
  let args := ["build"] ++ (if pull then ["--pull"] else [])
    ++ (if noCache then ["--no-cache"] else []) ++ ["-t", tag, contextDir]
  (args,
    match status with
    | none => .error .spawnFailed
    | some code => if code = 0 then .ok () else .error .buildFailed)

/-- Log granularity of the streamed build events in `build_with_opts`. -/
inductive LogLevel where
  | debug : LogLevel
  | error : LogLevel
  deriving DecidableEq, Repr

/-- `build_with_opts` (`src/docker/mod.rs`): package the context (an error
there propagates), then consume the whole build-event stream, logging `Ok`
items at debug and `Err` items at error granularity, and return `Ok(())`.
Errors inside the stream are logged but never turn into a failure. -/
def build_with_opts (tarResult : Except String Unit)
    (events : List (Except String String)) :
    Except String Unit × List (LogLevel × String) :=
  match tarResult with
  | .error e => (.error e, [])
  | .ok _ =>
    (.ok (),
      events.map fun ev =>
        match ev with
        | .ok m => (LogLevel.debug, m)
        | .error e => (LogLevel.error, e))

/-! ## Interactive exec session (`exec_interactive`, `src/docker/mod.rs`) -/

/-- `bollard::container::LogOutput`: a chunk of the remote output stream,
carrying its payload bytes. -/
inductive LogOutput where
  | stdOut (message : List Nat) : LogOutput
  | stdErr (message : List Nat) : LogOutput
  | stdIn (message : List Nat) : LogOutput
  | console (message : List Nat) : LogOutput
  deriving DecidableEq, Repr

/-- The output pump of `exec_interactive`: consume the remote stream to
exhaustion; write the payload of `StdOut`/`StdErr`/`Console` chunks to the
local stdout, skip other chunks and `Err` items.  Returns
(bytes consumed, bytes written). -/
def out_pump : List (Except String LogOutput) → Nat × Nat
  | [] => (0, 0)
  | chunk :: rest =>
    let (c, w) := out_pump rest
    match chunk with
    | .ok (.stdOut m) => (c + m.length, w + m.length)
    | .ok (.stdErr m) => (c + m.length, w + m.length)
    | .ok (.console m) => (c + m.length, w + m.length)
    | .ok (.stdIn m) => (c + m.length, w)
    | .error _ => (c, w)

/-- Total payload bytes carried by a remote output stream before it closes. -/
def streamBytes : List (Except String LogOutput) → Nat
  | [] => 0
  | .ok (.stdOut m) :: rest => m.length + streamBytes rest
  | .ok (.stdErr m) :: rest => m.length + streamBytes rest
  | .ok (.console m) :: rest => m.length + streamBytes rest
  | .ok (.stdIn m) :: rest => m.length + streamBytes rest
  | .error _ :: rest => streamBytes rest

/-- `tokio::try_join!(out_task, in_task)`: the join returns once both pump
join handles have completed (neither pump can return a join error short of a
panic), i.e. at the later of the two completion instants. -/
def try_join_completion (tOut tIn : Nat) : Nat := max tOut tIn

/-- `resize_handle.abort()` runs immediately after the join returns. -/
def resize_abort_time (tOut tIn : Nat) : Nat := try_join_completion tOut tIn

/-- Observable events of one `exec_interactive` session, in order. -/
inductive SessionEvent where
  /-- `RawModeGuard::enable` succeeded (terminal now raw). -/
  | enabledRaw : SessionEvent
  | createdExec : SessionEvent
  | startedExec : SessionEvent
  | sentInitialResize : SessionEvent
  | spawnedResizeWatcher : SessionEvent
  | outPumpDone : SessionEvent
  | inPumpDone : SessionEvent
  | joinedPumps : SessionEvent
  | abortedResizeWatcher : SessionEvent
  | inspectedExec : SessionEvent
  /-- the `RawModeGuard` drop ran (terminal back in cooked mode). -/
  | disabledRaw : SessionEvent
  deriving DecidableEq, Repr

/-- Index of the first occurrence of an event in a trace. -/
def idxOf (e : SessionEvent) : List SessionEvent → Nat
  | [] => 0
  | x :: xs => if x = e then 0 else idxOf e xs + 1

/-- `matches!(inspected.exit_code, Some(0))`. -/
def exitZero : Option Int → Bool
  | some 0 => true
  | _ => false

/-- Outcomes of the external interactions of one `exec_interactive` call:
whether raw mode could be entered, the results of the runtime calls, the
remote output stream, and which pump happens to finish first. -/
structure ExecEnv where
  enableRawOk : Bool
  createExecOk : Bool
  startExecOk : Bool
  /-- `StartExecResults::Attached` (vs `Detached`). -/
  attached : Bool
  output : List (Except String LogOutput)
  outFinishesFirst : Bool
  inspectOk : Bool
  exitCode : Option Int
  deriving Repr

/-- `exec_interactive` (`src/docker/mod.rs`): enable raw mode under a scope
guard, create and start the exec; when attached, send the initial resize,
spawn the resize watcher, run both pumps, join them, abort the watcher; then
inspect the exec and report whether it exited zero.  Every return path ends
with the guard drop releasing raw mode.  Returns the result, the session
trace, and the bytes the output pump wrote locally. -/
def exec_interactive (env : ExecEnv) :
    Except String Bool × List SessionEvent × Nat :=
  if env.enableRawOk then
    if env.createExecOk then
      if env.startExecOk then
        if env.attached then
          let written := (out_pump env.output).2
          let pumpEvents :=
            if env.outFinishesFirst then
              [SessionEvent.outPumpDone, SessionEvent.inPumpDone]
            else
              [SessionEvent.inPumpDone, SessionEvent.outPumpDone]
          let tr := [SessionEvent.enabledRaw, .createdExec, .startedExec,
              .sentInitialResize, .spawnedResizeWatcher]
            ++ pumpEvents ++ [SessionEvent.joinedPumps, .abortedResizeWatcher]
          if env.inspectOk then
            (.ok (exitZero env.exitCode),
              tr ++ [SessionEvent.inspectedExec, .disabledRaw], written)
          else
            (.error "inspect_exec", tr ++ [SessionEvent.disabledRaw], written)
        else
          if env.inspectOk then
            (.ok (exitZero env.exitCode),
              [SessionEvent.enabledRaw, .createdExec, .startedExec,
                .inspectedExec, .disabledRaw], 0)
          else
            (.error "inspect_exec",
              [SessionEvent.enabledRaw, .createdExec, .startedExec,
                .disabledRaw], 0)
      else
        (.error "start_exec",
          [SessionEvent.enabledRaw, .createdExec, .disabledRaw], 0)
    else
      (.error "create_exec", [SessionEvent.enabledRaw, .disabledRaw], 0)
  else
    (.error "raw mode", [], 0)

/-- `exec_interactive_shell` (`src/docker/mod.rs`): try `/bin/bash -l`
interactively; on a clean non-zero result fall back to `/bin/sh -l`; if both
report failure, bail.  Errors of either attempt propagate. -/
def exec_interactive_shell (envBash envSh : ExecEnv) :
    Except String Unit × List SessionEvent :=
  match exec_interactive envBash with
  | (.error e, tr, _) => (.error e, tr)
  | (.ok true, tr, _) => (.ok (), tr)
  | (.ok false, tr, _) =>
    match exec_interactive envSh with
    | (.error e, tr2, _) => (.error e, tr ++ tr2)
    | (.ok true, tr2, _) => (.ok (), tr ++ tr2)
    | (.ok false, tr2, _) => (.error "failed to attach interactive shell", tr ++ tr2)

/-- Terminal mode left behind by a session trace (`true` = raw). -/
def rawModeAfter (events : List SessionEvent) (initRaw : Bool) : Bool :=
  events.foldl
    (fun m e =>
      match e with
      | .enabledRaw => true
      | .disabledRaw => false
      | _ => m)
    initRaw

/-! ## Association-list lemmas for the registry proofs -/

theorem mapGet_mapInsert_self (k v : String) (l : EnvMap) :
    mapGet k (mapInsert k v l) = some v := by
  induction l with
  | nil => simp [mapInsert, mapGet]
  | cons hd tl ih =>
    obtain ⟨k', v'⟩ := hd
    by_cases h : k' = k <;> simp [mapInsert, mapGet, h, ih]

theorem mapGet_mapInsert_ne (k k' v : String) (l : EnvMap) (h : k' ≠ k) :
    mapGet k (mapInsert k' v l) = mapGet k l := by
  induction l with
  | nil => simp [mapInsert, mapGet, h]
  | cons hd tl ih =>
    obtain ⟨k'', v''⟩ := hd
    by_cases h2 : k'' = k'
    · subst h2
      simp [mapInsert, mapGet, h]
    · by_cases h3 : k'' = k
      · subst h3
        simp [mapInsert, mapGet, h2]
      · simp [mapInsert, mapGet, h2, h3, ih]

theorem mapGet_eq_none_iff (k : String) (l : EnvMap) :
    mapGet k l = none ↔ countKey k l = 0 := by
  induction l with
  | nil => simp [mapGet, countKey]
  | cons hd tl ih =>
    obtain ⟨k', v'⟩ := hd
    by_cases h : k' = k
    · subst h
      simp [mapGet, countKey, List.count_cons]
    · simpa [mapGet, countKey, List.count_cons, h, Ne.symm h] using ih

theorem countKey_cons_ne (k k' v' : String) (l : EnvMap) (h : k' ≠ k) :
    countKey k ((k', v') :: l) = countKey k l := by
  simp [countKey, List.count_cons, Ne.symm h]

theorem countKey_mapInsert (k v : String) (l : EnvMap) :
    countKey k (mapInsert k v l) =
      if (mapGet k l).isSome then countKey k l else countKey k l + 1 := by
  induction l with
  | nil => simp [mapInsert, mapGet, countKey]
  | cons hd tl ih =>
    obtain ⟨k', v'⟩ := hd
    by_cases h : k' = k
    · subst h
      simp [mapInsert, mapGet, countKey, List.count_cons]
    · have e1 : mapInsert k v ((k', v') :: tl) = (k', v') :: mapInsert k v tl := by
        simp [mapInsert, h]
      have e3 : mapGet k ((k', v') :: tl) = mapGet k tl := by
        simp [mapGet, h]
      rw [e1, countKey_cons_ne k k' v' (mapInsert k v tl) h, e3,
        countKey_cons_ne k k' v' tl h, ih]

theorem mapGet_mapErase_self (k : String) (l : EnvMap)
    (h : countKey k l ≤ 1) : mapGet k (mapErase k l) = none := by
  induction l with
  | nil => simp [mapErase, mapGet]
  | cons hd tl ih =>
    obtain ⟨k', v'⟩ := hd
    by_cases h2 : k' = k
    · subst h2
      have h1 : countKey k' tl + 1 ≤ 1 := by
        simpa [countKey, List.count_cons] using h
      have h0 : countKey k' tl = 0 := by omega
      simp [mapErase]
      exact (mapGet_eq_none_iff k' tl).mpr h0
    · have htl : countKey k tl ≤ 1 := by
        rwa [countKey_cons_ne k k' v' tl h2] at h
      simp [mapErase, mapGet, h2, ih htl]

theorem mapGet_mapInsert_of_get_eq (k p : String) (l : EnvMap)
    (h : mapGet k l = some p) : ∀ k', mapGet k' (mapInsert k p l) = mapGet k' l := by
  intro k'
  by_cases hk : k = k'
  · subst hk
    rw [mapGet_mapInsert_self, h]
  · exact mapGet_mapInsert_ne k' k p l hk

/-! ## Dockerfile-line separation lemmas -/

/-- Two strings that already differ within their first `n` characters are
different.  Used to separate generated Dockerfile lines whose fixed prefixes
diverge before any configuration-dependent text appears. -/
theorem string_ne_of_take_ne (n : Nat) (a b : List Char) {s t : String}
    (hs : s.data.take n = a) (ht : t.data.take n = b) (hab : a ≠ b) : s ≠ t := by
  intro e
  subst e
  exact hab (hs.symm.trans ht)

/-- The extra-package install line differs from every line of the fixed
header: their prefixes diverge before any configuration text appears. -/
theorem pkgInstallLine_not_mem_header (pkgs : List String) (image : String) :
    pkgInstallLine pkgs ∉ dockerfileHeader image := by
  have h1 : pkgInstallLine pkgs ≠ "# Generated by devenv. Do not edit manually." :=
    string_ne_of_take_ne 1 ['R'] ['#'] rfl rfl (by decide)
  have h2 : pkgInstallLine pkgs ≠
      "# Edit devenv.toml and use " ++ (Char.ofNat 39).toString
        ++ "devenv start --rebuild" ++ (Char.ofNat 39).toString ++ " instead." :=
    string_ne_of_take_ne 1 ['R'] ['#'] rfl rfl (by decide)
  have h3 : pkgInstallLine pkgs ≠ "FROM " ++ image :=
    string_ne_of_take_ne 1 ['R'] ['F'] rfl rfl (by decide)
  have h4 : pkgInstallLine pkgs ≠ "\n# Common utilities" :=
    string_ne_of_take_ne 1 ['R'] ['\n'] rfl rfl (by decide)
  have h5 : pkgInstallLine pkgs ≠ "RUN mkdir -p /workspace && \\" :=
    string_ne_of_take_ne 5 ['R', 'U', 'N', ' ', '('] ['R', 'U', 'N', ' ', 'm']
      rfl rfl (by decide)
  have h6 : pkgInstallLine pkgs ≠
      "    (command -v apt-get >/dev/null 2>&1 && apt-get update && apt-get install -y curl ca-certificates git sudo) || true" :=
    string_ne_of_take_ne 1 ['R'] [' '] rfl rfl (by decide)
  simp [dockerfileHeader, h1, h2, h3, h4, h5, h6]

/-- The extra-package install line differs from every trailing fixed line. -/
theorem pkgInstallLine_not_mem_trailer (pkgs : List String) :
    pkgInstallLine pkgs ∉ dockerfileTrailer := by
  have h1 : pkgInstallLine pkgs ≠ "RUN mkdir -p /root/.ssh && chmod 700 /root/.ssh" :=
    string_ne_of_take_ne 5 ['R', 'U', 'N', ' ', '('] ['R', 'U', 'N', ' ', 'm']
      rfl rfl (by decide)
  have h2 : pkgInstallLine pkgs ≠ "WORKDIR /workspace" :=
    string_ne_of_take_ne 1 ['R'] ['W'] rfl rfl (by decide)
  have h3 : pkgInstallLine pkgs ≠ "CMD [\"/bin/sh\", \"-lc\", \"tail -f /dev/null\"]" :=
    string_ne_of_take_ne 1 ['R'] ['C'] rfl rfl (by decide)
  simp [dockerfileTrailer, h1, h2, h3]

/-- The extra-package install line differs from every user-creation line. -/
theorem pkgInstallLine_not_mem_userCreationLines (pkgs : List String)
    (dev : DevEnv) (u : String) : pkgInstallLine pkgs ∉ userCreationLines dev u := by
  have h1 : pkgInstallLine pkgs ≠
      "RUN (getent group " ++ toString (dev.user_gid.getD (dev.user_uid.getD 1000))
        ++ " || groupadd -g " ++ toString (dev.user_gid.getD (dev.user_uid.getD 1000))
        ++ " " ++ u ++ ") || true" :=
    string_ne_of_take_ne 6 ['R', 'U', 'N', ' ', '(', 'c'] ['R', 'U', 'N', ' ', '(', 'g']
      rfl rfl (by decide)
  have h2 : pkgInstallLine pkgs ≠
      "RUN (id -u " ++ u ++ " >/dev/null 2>&1 || useradd -m -u "
        ++ toString (dev.user_uid.getD 1000) ++ " -g "
        ++ toString (dev.user_gid.getD (dev.user_uid.getD 1000))
        ++ " -s /bin/bash " ++ u ++ ") || true" :=
    string_ne_of_take_ne 6 ['R', 'U', 'N', ' ', '(', 'c'] ['R', 'U', 'N', ' ', '(', 'i']
      rfl rfl (by decide)
  have h3 : pkgInstallLine pkgs ≠
      "RUN mkdir -p /home/" ++ u ++ "/.ssh && chown -R " ++ u ++ ":" ++ u
        ++ " /home/" ++ u :=
    string_ne_of_take_ne 5 ['R', 'U', 'N', ' ', '('] ['R', 'U', 'N', ' ', 'm']
      rfl rfl (by decide)
  simp [userCreationLines, h1, h2, h3]

/-! ## Registry operation lemmas -/

/-- A disk whose load succeeds under the `BTreeMap` invariant yields a map
with at most one binding per key. -/
theorem countKey_le_one_of_load (d : RegFile) (envs : EnvMap) (hwf : DiskWF d)
    (h : load_registry d = .ok envs) : ∀ k, countKey k envs ≤ 1 := by
  cases d with
  | missing =>
    simp [load_registry] at h
    subst h
    intro k
    simp [countKey]
  | malformed => simp [load_registry] at h
  | stored e =>
    simp [load_registry] at h
    subst h
    exact hwf

/-- Shape of a successful `register_env`: the load succeeded, the name was
free or already bound to the same path, and the saved disk holds the map with
the binding inserted. -/
theorem register_env_ok_elim (name p : String) (d : RegFile)
    (h : (register_env name p d).res = .ok ()) :
    ∃ envs, load_registry d = .ok envs
      ∧ (mapGet name envs = none ∨ mapGet name envs = some p)
      ∧ (register_env name p d).disk = .stored (mapInsert name p envs) := by
  cases d with
  | missing =>
    refine ⟨[], rfl, Or.inl rfl, ?_⟩
    simp [register_env, load_registry, mapGet]
  | malformed => simp [register_env, load_registry] at h
  | stored envs =>
    cases hg : mapGet name envs with
    | none =>
      refine ⟨envs, rfl, Or.inl hg, ?_⟩
      simp [register_env, load_registry, hg]
    | some ex =>
      by_cases hex : ex = p
      · refine ⟨envs, rfl, Or.inr (by rw [hg, hex]), ?_⟩
        simp [register_env, load_registry, hg, hex]
      · simp [register_env, load_registry, hg, hex] at h

/-! ## Claim theorems -/

/-- **C3** (corrected detail-free, confirmed): for every well-formed disk on
which `register(name, path1)` succeeds, a following `register(name, path2)`
with `path2 ≠ path1` fails with the conflict error and leaves the registry
bound to `path1`, while re-registering `path1` succeeds and leaves exactly
one entry for `name`, bound to `path1`. -/
theorem c3_register_conflict_and_idempotent (d : RegFile) (name p1 p2 : String)
    (hwf : DiskWF d) (hne : p1 ≠ p2)
    (hok : (register_env name p1 d).res = .ok ()) :
    ((register_env name p2 (register_env name p1 d).disk).res
        = .error (.conflict name p1)
      ∧ (register_env name p2 (register_env name p1 d).disk).disk
        = (register_env name p1 d).disk
      ∧ lookup_env name (register_env name p2 (register_env name p1 d).disk).disk
        = .ok p1)
    ∧ ((register_env name p1 (register_env name p1 d).disk).res = .ok ()
      ∧ ∃ envs1, (register_env name p1 (register_env name p1 d).disk).disk
          = .stored envs1
        ∧ mapGet name envs1 = some p1
        ∧ countKey name envs1 = 1) := by
  obtain ⟨envs, hload, hget, hdisk⟩ := register_env_ok_elim name p1 d hok
  have hle := countKey_le_one_of_load d envs hwf hload
  have hget1 : mapGet name (mapInsert name p1 envs) = some p1 :=
    mapGet_mapInsert_self name p1 envs
  have hcount1 : countKey name (mapInsert name p1 envs) = 1 := by
    rw [countKey_mapInsert]
    rcases hget with hg | hg
    · rw [hg]
      simp [(mapGet_eq_none_iff name envs).mp hg]
    · rw [hg]
      have hpos : countKey name envs ≠ 0 := fun h0 => by
        rw [(mapGet_eq_none_iff name envs).mpr h0] at hg
        exact Option.noConfusion hg
      have := hle name
      simp only [Option.isSome_some, if_true]
      omega
  constructor
  · rw [hdisk]
    refine ⟨?_, ?_, ?_⟩
    · simp [register_env, load_registry, hget1, hne, Ne.symm hne]
    · simp [register_env, load_registry, hget1, hne, Ne.symm hne]
    · simp [register_env, load_registry, lookup_env, hget1, hne, Ne.symm hne]
  · rw [hdisk]
    refine ⟨?_, mapInsert name p1 (mapInsert name p1 envs), ?_, ?_, ?_⟩
    · simp [register_env, load_registry, hget1]
    · simp [register_env, load_registry, hget1]
    · exact mapGet_mapInsert_self name p1 (mapInsert name p1 envs)
    · rw [countKey_mapInsert, hget1]
      simpa using hcount1

/-- Witness for C3 at a concrete input: empty (missing) registry,
`name = "demo"`, `path1 = "/tmp/demo"`, `path2 = "/tmp/other"`. -/
theorem c3_witness :
    (register_env "demo" "/tmp/other"
        (register_env "demo" "/tmp/demo" RegFile.missing).disk).res
      = .error (.conflict "demo" "/tmp/demo")
    ∧ (register_env "demo" "/tmp/demo"
        (register_env "demo" "/tmp/demo" RegFile.missing).disk).res = .ok () := by
  have h := c3_register_conflict_and_idempotent RegFile.missing "demo"
    "/tmp/demo" "/tmp/other" trivial (by decide) rfl
  exact ⟨h.1.1, h.2.1⟩

/-- **C8** (confirmed): registry round-trip — after a successful
`register(name, path)`, `lookup(name)` returns `path`, `unregister(name)`
returns `true`, a subsequent `lookup(name)` fails with the not-found error;
and `unregister` on a name absent from the loaded registry returns `false`
without an error. -/
theorem c8_registry_roundtrip (d : RegFile) (name path : String)
    (hwf : DiskWF d) (hok : (register_env name path d).res = .ok ()) :
    (lookup_env name (register_env name path d).disk = .ok path
      ∧ (unregister_env name (register_env name path d).disk).res = .ok true
      ∧ lookup_env name
          (unregister_env name (register_env name path d).disk).disk
        = .error (.notFound name))
    ∧ (∀ (d' : RegFile) (n : String) (envs' : EnvMap),
        load_registry d' = .ok envs' → mapGet n envs' = none →
        (unregister_env n d').res = .ok false) := by
  obtain ⟨envs, hload, hget, hdisk⟩ := register_env_ok_elim name path d hok
  have hle := countKey_le_one_of_load d envs hwf hload
  have hget1 : mapGet name (mapInsert name path envs) = some path :=
    mapGet_mapInsert_self name path envs
  have hcount1 : countKey name (mapInsert name path envs) ≤ 1 := by
    rw [countKey_mapInsert]
    rcases hget with hg | hg
    · rw [hg]
      simp [(mapGet_eq_none_iff name envs).mp hg]
    · rw [hg]
      simpa using hle name
  constructor
  · rw [hdisk]
    refine ⟨?_, ?_, ?_⟩
    · simp [lookup_env, load_registry, hget1]
    · simp [unregister_env, load_registry, hget1]
    · have herase : mapGet name (mapErase name (mapInsert name path envs)) = none :=
        mapGet_mapErase_self name (mapInsert name path envs) hcount1
      simp [unregister_env, load_registry, lookup_env, hget1, herase]
  · intro d' n envs' hload' hget'
    cases d' with
    | missing =>
      simp [load_registry] at hload'
      subst hload'
      simp [unregister_env, load_registry, mapGet]
    | malformed => simp [load_registry] at hload'
    | stored e =>
      simp [load_registry] at hload'
      subst hload'
      simp [unregister_env, load_registry, hget']

/-- Witness for C8: the `"demo" → "/tmp/demo"` scenario on a missing
registry file. -/
theorem c8_witness :
    lookup_env "demo" (register_env "demo" "/tmp/demo" RegFile.missing).disk
      = .ok "/tmp/demo"
    ∧ (unregister_env "demo"
        (register_env "demo" "/tmp/demo" RegFile.missing).disk).res = .ok true
    ∧ lookup_env "demo"
        (unregister_env "demo"
          (register_env "demo" "/tmp/demo" RegFile.missing).disk).disk
      = .error (.notFound "demo")
    ∧ (unregister_env "never" RegFile.missing).res = .ok false := by
  have h := c8_registry_roundtrip RegFile.missing "demo" "/tmp/demo" trivial rfl
  exact ⟨h.1.1, h.1.2.1, h.1.2.2, h.2 RegFile.missing "never" [] rfl rfl⟩

/-- **C9** (confirmed): a missing registry file is treated as an empty
registry and every operation proceeds exactly as on an empty stored registry,
whereas a present but malformed file makes every registry operation fail with
the corrupt-state error. -/
theorem c9_missing_empty_malformed_corrupt :
    load_registry RegFile.missing = .ok []
    ∧ (∀ n, lookup_env n RegFile.missing = lookup_env n (.stored [])
        ∧ lookup_env n RegFile.missing = .error (.notFound n))
    ∧ (∀ n p, (register_env n p RegFile.missing).res
          = (register_env n p (.stored [])).res
        ∧ (register_env n p RegFile.missing).disk
          = (register_env n p (.stored [])).disk
        ∧ (register_env n p RegFile.missing).res = .ok ()
        ∧ (register_env n p RegFile.missing).disk = .stored [(n, p)])
    ∧ (∀ n, (unregister_env n RegFile.missing).res
          = (unregister_env n (.stored [])).res
        ∧ (unregister_env n RegFile.missing).res = .ok false)
    ∧ (∀ n p, (register_env n p RegFile.malformed).res = .error .corrupt
        ∧ lookup_env n RegFile.malformed = .error .corrupt
        ∧ (unregister_env n RegFile.malformed).res = .error .corrupt) := by
  refine ⟨rfl, fun n => ⟨rfl, rfl⟩, fun n p => ⟨rfl, ?_, rfl, ?_⟩,
    fun n => ⟨rfl, rfl⟩, fun n p => ⟨rfl, rfl, rfl⟩⟩
  · simp [register_env, load_registry, mapGet, mapInsert]
  · simp [register_env, load_registry, mapGet, mapInsert]

/-- Counterexample to **C10** as stated: an idempotent re-register is a
registry mutation that does not change the mapping, yet it does rewrite the
persisted file (`register_env` unconditionally inserts and saves on the
non-conflicting path). -/
theorem c10_counterexample :
    (register_env "demo" "/tmp/demo" (.stored [("demo", "/tmp/demo")])).res
      = .ok ()
    ∧ (register_env "demo" "/tmp/demo" (.stored [("demo", "/tmp/demo")])).disk
      = .stored [("demo", "/tmp/demo")]
    ∧ (register_env "demo" "/tmp/demo"
        (.stored [("demo", "/tmp/demo")])).wrote = true :=
  ⟨rfl, rfl, rfl⟩

/-- **C10** (amended): `unregister` of an absent name returns `false` without
writing the file; a `register` that fails (conflict or corrupt state) returns
before any write; every error outcome and the unregister no-op leave the disk
untouched.  However, an idempotent re-register does rewrite the file — with
the mapping unchanged. -/
theorem c10_no_write_on_error_or_noop (d : RegFile) (n p : String) :
    ((unregister_env n d).res = .ok false →
      (unregister_env n d).wrote = false ∧ (unregister_env n d).disk = d)
    ∧ (∀ e, (unregister_env n d).res = .error e →
      (unregister_env n d).wrote = false ∧ (unregister_env n d).disk = d)
    ∧ (∀ e, (register_env n p d).res = .error e →
      (register_env n p d).wrote = false ∧ (register_env n p d).disk = d)
    ∧ (∀ envs, load_registry d = .ok envs → mapGet n envs = some p →
      (register_env n p d).wrote = true
        ∧ (register_env n p d).disk = .stored (mapInsert n p envs)
        ∧ ∀ k, mapGet k (mapInsert n p envs) = mapGet k envs) := by
  refine ⟨?_, ?_, ?_, ?_⟩
  · intro h
    cases d with
    | missing => exact ⟨rfl, rfl⟩
    | malformed => simp [unregister_env, load_registry] at h
    | stored envs =>
      by_cases hg : (mapGet n envs).isSome
      · simp [unregister_env, load_registry, hg] at h
      · simp [unregister_env, load_registry, hg]
  · intro e h
    cases d with
    | missing => simp [unregister_env, load_registry, mapGet] at h
    | malformed => exact ⟨rfl, rfl⟩
    | stored envs =>
      by_cases hg : (mapGet n envs).isSome <;>
        simp [unregister_env, load_registry, hg] at h
  · intro e h
    cases d with
    | missing => simp [register_env, load_registry, mapGet] at h
    | malformed => exact ⟨rfl, rfl⟩
    | stored envs =>
      cases hg : mapGet n envs with
      | none => simp [register_env, load_registry, hg] at h
      | some ex =>
        by_cases hex : ex = p
        · subst hex
          simp [register_env, load_registry, hg] at h
        · simp [register_env, load_registry, hg, hex]
  · intro envs hload hget
    have hmaps := mapGet_mapInsert_of_get_eq n p envs hget
    cases d with
    | missing =>
      simp [load_registry] at hload
      subst hload
      simp [mapGet] at hget
    | malformed => simp [load_registry] at hload
    | stored e =>
      simp [load_registry] at hload
      subst hload
      exact ⟨by simp [register_env, load_registry, hget],
        by simp [register_env, load_registry, hget], hmaps⟩

/-- Witness for C10 (amended) at concrete inputs: an unregister no-op on an
empty registry, a conflicting register, and an idempotent re-register. -/
theorem c10_witness :
    ((unregister_env "demo" RegFile.missing).wrote = false
      ∧ (unregister_env "demo" RegFile.missing).disk = RegFile.missing)
    ∧ ((register_env "demo" "/tmp/other"
          (.stored [("demo", "/tmp/demo")])).wrote = false
      ∧ (register_env "demo" "/tmp/other"
          (.stored [("demo", "/tmp/demo")])).disk = .stored [("demo", "/tmp/demo")])
    ∧ (register_env "demo" "/tmp/demo"
        (.stored [("demo", "/tmp/demo")])).wrote = true := by
  refine ⟨(c10_no_write_on_error_or_noop RegFile.missing "demo" "/tmp/demo").1 rfl,
    (c10_no_write_on_error_or_noop (.stored [("demo", "/tmp/demo")]) "demo"
      "/tmp/other").2.2.1 (.conflict "demo" "/tmp/demo") rfl,
    ((c10_no_write_on_error_or_noop (.stored [("demo", "/tmp/demo")]) "demo"
      "/tmp/demo").2.2.2 [("demo", "/tmp/demo")] rfl rfl).1⟩

/-- **C4** (confirmed): `generate_dockerfile` is a pure function of
(image, packages, effective non-root user with uid/gid) — identical inputs
render identical output; a non-empty package list yields exactly one
occurrence of its install directive line (which lists the packages in order,
as in the `["git", "make"]` scenario); a non-root user adds the
user-creation/home-directory directives, absent otherwise. -/
theorem c4_generate_dockerfile_pure_and_shaped :
    (∀ d1 d2 : DevEnv, d1.image = d2.image → d1.packages = d2.packages →
      effectiveNonRootUser d1 = effectiveNonRootUser d2 →
      d1.user_uid = d2.user_uid → d1.user_gid = d2.user_gid →
      generate_dockerfile d1 = generate_dockerfile d2)
    ∧ (∀ d : DevEnv, d.packages ≠ [] →
      (generate_dockerfile_lines d).count (pkgInstallLine d.packages) = 1)
    ∧ (∀ (d : DevEnv) (u : String), effectiveNonRootUser d = some u →
      ∀ l ∈ userCreationLines d u, l ∈ generate_dockerfile_lines d)
    ∧ (∀ d : DevEnv, effectiveNonRootUser d = none →
      generate_dockerfile_lines d =
        dockerfileHeader d.image
          ++ (if d.packages.isEmpty then [] else [pkgInstallLine d.packages])
          ++ dockerfileTrailer)
    ∧ ((generate_dockerfile_lines demoDevEnv).count (pkgInstallLine ["git", "make"]) = 1
      ∧ pkgInstallLine ["git", "make"]
          = "RUN (command -v apt-get >/dev/null 2>&1 && apt-get update && apt-get install -y git make) || true"
      ∧ effectiveNonRootUser demoDevEnv = none) := by
  refine ⟨?_, ?_, ?_, ?_, ?_, rfl, rfl⟩
  · intro d1 d2 h1 h2 h3 h4 h5
    simp only [generate_dockerfile, generate_dockerfile_lines, dockerfileHeader,
      userCreationLines, h1, h2, h3, h4, h5]
  · intro d h
    have hne : d.packages.isEmpty = false := by
      cases hp : d.packages with
      | nil => exact absurd hp h
      | cons a t => simp
    have hh : (dockerfileHeader d.image).count (pkgInstallLine d.packages) = 0 :=
      List.count_eq_zero.mpr (pkgInstallLine_not_mem_header d.packages d.image)
    have ht : dockerfileTrailer.count (pkgInstallLine d.packages) = 0 :=
      List.count_eq_zero.mpr (pkgInstallLine_not_mem_trailer d.packages)
    cases hu : effectiveNonRootUser d with
    | none =>
      simp [generate_dockerfile_lines, hne, hu, List.count_append, hh, ht]
    | some u =>
      have hul : (userCreationLines d u).count (pkgInstallLine d.packages) = 0 :=
        List.count_eq_zero.mpr
          (pkgInstallLine_not_mem_userCreationLines d.packages d u)
      simp [generate_dockerfile_lines, hne, hu, List.count_append, hh, ht, hul]
  · intro d u hu l hl
    simp only [generate_dockerfile_lines, hu, List.mem_append]
    exact Or.inl (Or.inr hl)
  · intro d hu
    simp [generate_dockerfile_lines, hu]
  · decide

/-- Witness for C4 at the scenario input (debian image, `["git", "make"]`,
no user): the rendered lines carry the single install directive, and the
package-count clause of the theorem is instantiated there. -/
theorem c4_witness :
    demoDevEnv.packages ≠ []
    ∧ (generate_dockerfile_lines demoDevEnv).count (pkgInstallLine demoDevEnv.packages) = 1 :=
  ⟨by decide, c4_generate_dockerfile_pure_and_shaped.2.1 demoDevEnv (by decide)⟩

/-- **C1** (confirmed): the start reconciliation first queries the running
state; on a Running container it issues no create/start/exec call and reports
"already running"; on a Stopped container it issues a start call only (no
create) and the resulting state is Running; on an Absent container it issues
a create (project directory bind-mounted at `/workspace`, published SSH port
mapping exactly when one is configured) followed by a start, resulting in
state Running. -/
theorem c1_ensure_running (cn image dir : String) (port : Option Nat) :
    (cmd_start_ensure_running .running cn image dir port
        = ([.queryRunning cn], true))
    ∧ (cmd_start_ensure_running .stopped cn image dir port
        = ([.queryRunning cn, .queryExists cn, .startContainer cn], false)
      ∧ applyCalls .stopped
          (cmd_start_ensure_running .stopped cn image dir port).1 = .running)
    ∧ (cmd_start_ensure_running .absent cn image dir port
        = ([.queryRunning cn, .queryExists cn,
            .createContainer cn image [dir ++ ":/workspace"]
              (sshPortBindings port) ["/bin/sh", "-lc", "sleep infinity"]
              "/workspace",
            .startContainer cn], false)
      ∧ applyCalls .absent
          (cmd_start_ensure_running .absent cn image dir port).1 = .running)
    ∧ (∀ p, sshPortBindings (some p) = [("22/tcp", "0.0.0.0", toString p)])
    ∧ sshPortBindings none = []
    ∧ (∀ st, (cmd_start_ensure_running st cn image dir port).1.head?
        = some (.queryRunning cn)) := by
  refine ⟨rfl, ⟨rfl, rfl⟩, ⟨rfl, rfl⟩, fun p => rfl, rfl, fun st => ?_⟩
  cases st <;> rfl

/-- Counterexample to **C2** as stated: on an existing (stopped) container,
`cmd_remove` issues the remove call with the force flag `false` —
the container is not force-removed. -/
theorem c2_remove_counterexample :
    RuntimeCall.removeContainer "devenv-demo" true
        ∉ (cmd_remove .stopped "devenv-demo" "demo" .missing).1
    ∧ RuntimeCall.removeContainer "devenv-demo" false
        ∈ (cmd_remove .stopped "devenv-demo" "demo" .missing).1 := by
  decide

/-- **C2** (amended: the existing container is removed with the force flag
`false`, not force-removed): a running container is stopped before removal;
an existing container is removed (force = false); an absent container gets
neither a stop nor a remove call; registry unregistration is attempted in
every case, and the outcome reports container existence and registry
existence distinctly. -/
theorem c2_remove_amended (st : ContainerState) (cn en : String) (d : RegFile) :
    ((cmd_remove .running cn en d).1
        = [.queryExists cn, .queryRunning cn, .stopContainer cn,
            .removeContainer cn false])
    ∧ ((cmd_remove .stopped cn en d).1
        = [.queryExists cn, .queryRunning cn, .removeContainer cn false])
    ∧ ((cmd_remove .absent cn en d).1 = [.queryExists cn])
    ∧ (∀ f, RuntimeCall.stopContainer cn ∉ (cmd_remove .absent cn en d).1
        ∧ RuntimeCall.removeContainer cn f ∉ (cmd_remove .absent cn en d).1)
    ∧ ((cmd_remove st cn en d).2.1
        = (containerExists st, (unregister_env en d).res))
    ∧ ((cmd_remove st cn en d).2.2 = (unregister_env en d).disk) := by
  refine ⟨rfl, rfl, rfl, fun f => ⟨?_, ?_⟩, rfl, rfl⟩
  · simp [cmd_remove, containerExists]
  · simp [cmd_remove, containerExists]

/-- Witness for C2 (amended) at concrete inputs: the absent case still
attempts unregistration of a registered entry. -/
theorem c2_witness :
    (cmd_remove .absent "devenv-demo" "demo"
        (.stored [("demo", "/tmp/demo")])).1 = [.queryExists "devenv-demo"]
    ∧ (cmd_remove .absent "devenv-demo" "demo"
        (.stored [("demo", "/tmp/demo")])).2.1 = (false, .ok true) :=
  ⟨(c2_remove_amended .absent "devenv-demo" "demo"
      (.stored [("demo", "/tmp/demo")])).2.2.1,
    ((c2_remove_amended .absent "devenv-demo" "demo"
      (.stored [("demo", "/tmp/demo")])).2.2.2.2.1).trans rfl⟩

/-- **C5** (confirmed on the CLI build path; the native-API path exhibits the
stream tolerance): `docker_build_with_opts` fails exactly on a failed spawn
(transport level) or a non-zero final build result; `build_with_opts`
consumes the whole event stream, logs `Err` items at error granularity, and
errors inside the stream never by themselves make the build return an
error. -/
theorem c5_build_failure_semantics :
    (∀ (pull noCache : Bool) (tag ctx : String) (status : Option Int),
      ((docker_build_with_opts pull noCache tag ctx status).2 = .ok ()
          ↔ status = some 0)
      ∧ ((∃ e, (docker_build_with_opts pull noCache tag ctx status).2 = .error e)
          ↔ status = none ∨ ∃ c, status = some c ∧ c ≠ 0))
    ∧ (∀ events : List (Except String String),
      (build_with_opts (.ok ()) events).1 = .ok ()
      ∧ ∀ e, .error e ∈ events →
          (LogLevel.error, e) ∈ (build_with_opts (.ok ()) events).2) := by
  constructor
  · intro pull noCache tag ctx status
    cases status with
    | none => simp [docker_build_with_opts]
    | some c =>
      by_cases hc : c = 0
      · subst hc
        simp [docker_build_with_opts]
      · simp [docker_build_with_opts, hc]
  · intro events
    refine ⟨rfl, fun e he => ?_⟩
    have := List.mem_map_of_mem
      (fun ev : Except String String =>
        match ev with
        | .ok m => (LogLevel.debug, m)
        | .error e' => (LogLevel.error, e')) he
    simpa [build_with_opts] using this

/-- Witness for C5 at concrete inputs: a non-zero final result fails the
build, and an in-stream error is logged while the build still returns ok. -/
theorem c5_witness :
    (¬ (docker_build_with_opts true false "devenv-demo:latest" "/tmp/demo"
        (some 1)).2 = .ok ())
    ∧ (build_with_opts (.ok ())
        [.ok "Step 1/3", .error "step failed"]).1 = .ok ()
    ∧ (LogLevel.error, "step failed")
        ∈ (build_with_opts (.ok ()) [.ok "Step 1/3", .error "step failed"]).2 := by
  refine ⟨?_, (c5_build_failure_semantics.2 [.ok "Step 1/3", .error "step failed"]).1,
    (c5_build_failure_semantics.2 [.ok "Step 1/3", .error "step failed"]).2
      "step failed" (by simp)⟩
  intro h
  have := (c5_build_failure_semantics.1 true false "devenv-demo:latest"
    "/tmp/demo" (some 1)).1.mp h
  simp at this

/-! ## Exec-session helpers -/

theorem rawModeAfter_append (a b : List SessionEvent) (i : Bool) :
    rawModeAfter (a ++ b) i = rawModeAfter b (rawModeAfter a i) := by
  simp [rawModeAfter, List.foldl_append]

/-- Every return path of one `exec_interactive` call leaves the terminal in
cooked mode: the guard drop is the last terminal action on each path. -/
theorem exec_interactive_restores_raw (env : ExecEnv) :
    rawModeAfter (exec_interactive env).2.1 false = false := by
  obtain ⟨er, ce, se, att, out, off, io, ec⟩ := env
  cases er <;> cases ce <;> cases se <;> cases att <;> cases off <;> cases io <;> rfl

/-- The bash-then-sh fallback wrapper also leaves the terminal in cooked
mode on every path. -/
theorem exec_interactive_shell_restores_raw (e1 e2 : ExecEnv) :
    rawModeAfter (exec_interactive_shell e1 e2).2 false = false := by
  have h1 := exec_interactive_restores_raw e1
  have h2 := exec_interactive_restores_raw e2
  rcases hA : exec_interactive e1 with ⟨res, tr, w⟩
  rw [hA] at h1
  have h1' : rawModeAfter tr false = false := h1
  cases res with
  | error e =>
    simpa [exec_interactive_shell, hA] using h1'
  | ok b =>
    cases b with
    | true => simpa [exec_interactive_shell, hA] using h1'
    | false =>
      rcases hB : exec_interactive e2 with ⟨res2, tr2, w2⟩
      rw [hB] at h2
      have h2' : rawModeAfter tr2 false = false := h2
      cases res2 with
      | error e =>
        simp [exec_interactive_shell, hA, hB, rawModeAfter_append, h1', h2']
      | ok b2 =>
        cases b2 <;>
          simp [exec_interactive_shell, hA, hB, rawModeAfter_append, h1', h2']

/-- Counterexample to **C6** as stated: with the output pump completing at
instant 3 and the input pump at instant 7, the session join
(`tokio::try_join!`) returns at 7 — completion of one I/O pump alone does
not end the session; it waits for both. -/
theorem c6_counterexample :
    try_join_completion 3 7 = 7 ∧ min 3 7 = 3
    ∧ try_join_completion 3 7 ≠ min 3 7 := by
  decide

/-- **C6** (amended: the session ends when *both* pumps have completed, not
when either one does): the join completes no earlier than either pump and at
one of the two completion instants, the resize watcher is aborted exactly at
the join, the abort follows both pump completions in the session trace
regardless of which pump finished first, and the output pump terminates
having consumed exactly the bytes the remote stream carried before closing. -/
theorem c6_session_amended :
    (∀ tOut tIn, tOut ≤ try_join_completion tOut tIn
      ∧ tIn ≤ try_join_completion tOut tIn
      ∧ (try_join_completion tOut tIn = tOut ∨ try_join_completion tOut tIn = tIn)
      ∧ resize_abort_time tOut tIn = try_join_completion tOut tIn)
    ∧ (∀ env : ExecEnv, env.enableRawOk = true → env.createExecOk = true →
        env.startExecOk = true → env.attached = true →
        SessionEvent.abortedResizeWatcher ∈ (exec_interactive env).2.1
        ∧ idxOf .outPumpDone (exec_interactive env).2.1
            < idxOf .abortedResizeWatcher (exec_interactive env).2.1
        ∧ idxOf .inPumpDone (exec_interactive env).2.1
            < idxOf .abortedResizeWatcher (exec_interactive env).2.1)
    ∧ (∀ stream : List (Except String LogOutput),
        (out_pump stream).1 = streamBytes stream) := by
  refine ⟨?_, ?_, ?_⟩
  · intro tOut tIn
    refine ⟨Nat.le_max_left _ _, Nat.le_max_right _ _, ?_, rfl⟩
    rcases Nat.le_total tOut tIn with h | h
    · exact Or.inr (Nat.max_eq_right h)
    · exact Or.inl (Nat.max_eq_left h)
  · intro env h1 h2 h3 h4
    obtain ⟨er, ce, se, att, out, off, io, ec⟩ := env
    have h1' : er = true := h1
    have h2' : ce = true := h2
    have h3' : se = true := h3
    have h4' : att = true := h4
    subst h1' h2' h3' h4'
    cases off <;> cases io <;> simp [exec_interactive, idxOf]
  · intro stream
    induction stream with
    | nil => rfl
    | cons c rest ih =>
      cases c with
      | error e => simpa [out_pump, streamBytes] using ih
      | ok lo =>
        cases lo <;> simp [out_pump, streamBytes, ih, Nat.add_comm]

/-- Witness for C6 (amended) at a concrete session: a remote stream closing
after 2 bytes, output pump finishing first. -/
theorem c6_witness :
    SessionEvent.abortedResizeWatcher
      ∈ (exec_interactive
          ⟨true, true, true, true, [.ok (.stdOut [104, 105])], true, true,
            some 0⟩).2.1
    ∧ (out_pump [.ok (.stdOut [104, 105]), .error "closed"]).1
        = streamBytes [.ok (.stdOut [104, 105]), .error "closed"] :=
  ⟨(c6_session_amended.2.1
      ⟨true, true, true, true, [.ok (.stdOut [104, 105])], true, true, some 0⟩
      rfl rfl rfl rfl).1,
    c6_session_amended.2.2 [.ok (.stdOut [104, 105]), .error "closed"]⟩

/-- **C7** (confirmed): when raw mode is acquired it is the session's first
terminal action and its scope-guarded release is the trace's last event on
every return path (normal completion, remote error at any stage); when the
acquire fails nothing happens; consequently no exit path of
`exec_interactive` — nor of the bash/sh fallback wrapper around it — leaves
the terminal in raw mode. -/
theorem c7_raw_mode_guard (env e1 e2 : ExecEnv) :
    (env.enableRawOk = true →
      (exec_interactive env).2.1.head? = some SessionEvent.enabledRaw
      ∧ (exec_interactive env).2.1.getLast? = some SessionEvent.disabledRaw)
    ∧ (env.enableRawOk = false → (exec_interactive env).2.1 = [])
    ∧ rawModeAfter (exec_interactive env).2.1 false = false
    ∧ rawModeAfter (exec_interactive_shell e1 e2).2 false = false := by
  refine ⟨?_, ?_, exec_interactive_restores_raw env,
    exec_interactive_shell_restores_raw e1 e2⟩
  · intro h
    obtain ⟨er, ce, se, att, out, off, io, ec⟩ := env
    have h' : er = true := h
    subst h'
    cases ce <;> cases se <;> cases att <;> cases off <;> cases io <;>
      exact ⟨rfl, rfl⟩
  · intro h
    obtain ⟨er, ce, se, att, out, off, io, ec⟩ := env
    have h' : er = false := h
    subst h'
    rfl

/-- Witness for C7 at a concrete session (raw mode acquired, attached,
clean exit). -/
theorem c7_witness :
    (exec_interactive
        ⟨true, true, true, true, [.ok (.console [10])], false, true,
          some 0⟩).2.1.head? = some SessionEvent.enabledRaw
    ∧ (exec_interactive
        ⟨true, true, true, true, [.ok (.console [10])], false, true,
          some 0⟩).2.1.getLast? = some SessionEvent.disabledRaw :=
  (c7_raw_mode_guard
    ⟨true, true, true, true, [.ok (.console [10])], false, true, some 0⟩
    ⟨true, true, true, true, [], true, true, some 0⟩
    ⟨true, true, true, true, [], true, true, some 0⟩).1 rfl

end Devenv
